import Mathlib

/- Verification of the two DoubleClick Bid Manager example scripts,
   download_line_items.py and get_latest_report.py.

   The scripts are shallowly embedded: the remote reporting service, the
   filesystem and the wall-clock timer are modelled as explicit inputs
   (a list of successive query snapshots the service would return, a
   record describing the remote resource, an opaque elapsed-time string),
   and every observable action of a script (remote calls, prints, sleeps,
   file writes) is recorded in a trace of effects.  A Python exception
   that escapes a function is modelled as an `Except.error` value. -/

namespace GetLatestReport

/-- The metadata sub-record of a query response, as read by
    get_latest_report.py: `running`, `latestReportRunTimeMs` and
    `googleCloudStoragePathForLatestReport`.  The last two keys may be
    absent from the response dictionary, hence `Option`. -/
structure Metadata where
  running : Bool
  latestReportRunTimeMs : Option Int
  googleCloudStoragePathForLatestReport : Option String
deriving Repr, DecidableEq

/-- A query response: `queryId` plus the optional `metadata` dictionary
    (a response with no `metadata` key models an absent query). -/
structure Query where
  queryId : Int
  metadata : Option Metadata
deriving Repr, DecidableEq

/-- Python exceptions that escape the embedded functions.
    `keyError k` is a Python `KeyError` on the missing dictionary key `k`
    (for `k = "metadata"` this is the QueryNotFound of the design
    taxonomy); `stillRunning` is the bare `raise` in `dbm_getquery_safe`
    when `dont_wait` is set; `transportError` stands for the service
    failing to answer (in the embedding: the snapshot oracle being
    exhausted); `nameError v` is a Python `NameError` on the unbound
    local variable `v`. -/
inductive DbmError where
  | keyError (key : String)
  | stillRunning
  | transportError
  | nameError (var : String)
deriving Repr, DecidableEq

/-- Observable actions of get_latest_report.py, in program order:
    remote calls, prints, sleeps and the invocation of the report
    download.  `saveReport` records a call of `save_report_to_file`
    (whose internal behaviour is modelled separately below). -/
inductive Effect where
  | getQuery (queryId : Int)
  | stillRunningMsg
  | sleepFor (seconds : Nat)
  | runQuery (queryId : Int) (dataRange : String)
  | saveReport (outputDir : String) (queryId : Int) (reportUrl : String) (method : String)
  | downloadCompleteMsg
  | noReportFoundMsg (queryId : Int)
  | listQueriesCall
  | printIdNameHeader
  | printQueryRow (queryId : Int) (title : String)
  | printNoQueries
deriving Repr, DecidableEq

/-- Whether an effect is a `sleep` call. -/
def isSleepEffect : Effect → Bool
  | Effect.sleepFor _ => true
  | _ => false

/-- Number of `sleep` calls in a trace. -/
def countSleeps (tr : List Effect) : Nat := tr.countP isSleepEffect

/-- Whether an effect is a `save_report_to_file` invocation (a download). -/
def isSaveReportEffect : Effect → Bool
  | Effect.saveReport _ _ _ _ => true
  | _ => false

/-- Number of download invocations in a trace. -/
def countSaveReports (tr : List Effect) : Nat := tr.countP isSaveReportEffect

/-- Whether an effect is a `runquery` remote call. -/
def isRunQueryEffect : Effect → Bool
  | Effect.runQuery _ _ => true
  | _ => false

/-- Number of `runquery` remote calls in a trace. -/
def countRunQueries (tr : List Effect) : Nat := tr.countP isRunQueryEffect

/-- Shallow embedding of `is_in_report_window` (get_latest_report.py,
    lines 129-141).  The source converts `run_time_ms` to a datetime
    (`datetime.fromtimestamp(int(run_time_ms)/1000)`) and compares it
    strictly against `datetime.now() - timedelta(hours=report_window)`.
    Both sides are exact instants on the same clock, so the comparison
    is equivalent to comparing epoch milliseconds: one hour is
    3600000 ms, and `now_ms` is the current time in epoch milliseconds. -/
def is_in_report_window (run_time_ms : Int) (report_window : Nat) (now_ms : Int) : Bool :=
  decide (run_time_ms > now_ms - (report_window : Int) * 3600000)

/-- The `while query['metadata']['running']` loop of `dbm_getquery_safe`
    (lines 114-127), given the current snapshot `q` and the snapshots
    `rest` the service would return to further `getquery` calls.
    Reading the missing `metadata` key raises `KeyError`; while running
    it prints the still-running message, then with `dont_wait` performs
    the bare `raise` (modelled as `stillRunning`), otherwise sleeps
    `wait_time` seconds and re-fetches. -/
def dbm_poll_loop (query_id : Int) (wait_time : Nat) (dont_wait : Bool) :
    Query → List Query → List Effect × Except DbmError Query
  | ⟨_, none⟩, _ => ([], Except.error (DbmError.keyError "metadata"))
  | ⟨qid0, some md⟩, rest =>
    if md.running then
      if dont_wait then
        ([Effect.stillRunningMsg], Except.error DbmError.stillRunning)
      else
        match rest with
        | [] => ([Effect.stillRunningMsg, Effect.sleepFor wait_time],
                 Except.error DbmError.transportError)
        | q2 :: rest2 =>
          (Effect.stillRunningMsg :: Effect.sleepFor wait_time ::
             Effect.getQuery query_id ::
             (dbm_poll_loop query_id wait_time dont_wait q2 rest2).1,
           (dbm_poll_loop query_id wait_time dont_wait q2 rest2).2)
    else ([], Except.ok ⟨qid0, some md⟩)

/-- Shallow embedding of `dbm_getquery_safe` (lines 102-127): one
    initial `getquery` call followed by the polling loop.  `polls` is
    the sequence of snapshots the service returns to the successive
    `getquery` calls. -/
def dbm_getquery_safe (polls : List Query) (query_id : Int) (wait_time : Nat)
    (dont_wait : Bool) : List Effect × Except DbmError Query :=
  match polls with
  | [] => ([Effect.getQuery query_id], Except.error DbmError.transportError)
  | q :: rest =>
    let next := dbm_poll_loop query_id wait_time dont_wait q rest
    (Effect.getQuery query_id :: next.1, next.2)

/-- Unfolding lemma for the polling loop: a snapshot whose `metadata`
    key is absent raises `KeyError` at once, whatever the further
    snapshots are. -/
theorem dbm_poll_loop_no_metadata (query_id : Int) (wait_time : Nat) (dont_wait : Bool)
    (qid0 : Int) (rest : List Query) :
    dbm_poll_loop query_id wait_time dont_wait ⟨qid0, none⟩ rest =
      ([], Except.error (DbmError.keyError "metadata")) := by
  cases rest <;> simp [dbm_poll_loop]

/-- Unfolding lemma for the polling loop: a non-running snapshot is
    returned at once, whatever the further snapshots are. -/
theorem dbm_poll_loop_not_running (query_id : Int) (wait_time : Nat) (dont_wait : Bool)
    (qid0 : Int) (md : Metadata) (rest : List Query) (hrun : md.running = false) :
    dbm_poll_loop query_id wait_time dont_wait ⟨qid0, some md⟩ rest =
      ([], Except.ok ⟨qid0, some md⟩) := by
  cases rest <;> simp [dbm_poll_loop, hrun]

/-- Unfolding lemma for the polling loop: on a running snapshot with
    `dont_wait` set, the loop prints the still-running message and
    performs the bare `raise`, whatever the further snapshots are. -/
theorem dbm_poll_loop_running_dont_wait (query_id : Int) (wait_time : Nat)
    (qid0 : Int) (md : Metadata) (rest : List Query) (hrun : md.running = true) :
    dbm_poll_loop query_id wait_time true ⟨qid0, some md⟩ rest =
      ([Effect.stillRunningMsg], Except.error DbmError.stillRunning) := by
  cases rest <;> simp [dbm_poll_loop, hrun]

/-- Claim C3: if the first fetched snapshot has `running = true` and
    `dont_wait` is set, `dbm_getquery_safe` fails with the StillRunning
    error (the bare `raise`) and its trace holds no sleep at all: it is
    exactly the initial fetch followed by the still-running message. -/
theorem c3_dont_wait_fails_still_running_without_sleeping
    (q : Query) (md : Metadata) (rest : List Query) (query_id : Int) (wait_time : Nat)
    (hmd : q.metadata = some md) (hrun : md.running = true) :
    dbm_getquery_safe (q :: rest) query_id wait_time true =
      ([Effect.getQuery query_id, Effect.stillRunningMsg],
       Except.error DbmError.stillRunning) ∧
    countSleeps (dbm_getquery_safe (q :: rest) query_id wait_time true).1 = 0 := by
  obtain ⟨qid0, qmd⟩ := q
  simp only at hmd
  subst hmd
  constructor <;>
    simp [dbm_getquery_safe,
      dbm_poll_loop_running_dont_wait query_id wait_time qid0 md rest hrun,
      countSleeps, isSleepEffect]

/-- Witness for C3 at a concrete running query. -/
theorem c3_witness :
    dbm_getquery_safe [⟨7, some ⟨true, some 0, none⟩⟩] 7 60 true =
      ([Effect.getQuery 7, Effect.stillRunningMsg],
       Except.error DbmError.stillRunning) ∧
    countSleeps (dbm_getquery_safe [⟨7, some ⟨true, some 0, none⟩⟩] 7 60 true).1 = 0 :=
  c3_dont_wait_fails_still_running_without_sleeping
    ⟨7, some ⟨true, some 0, none⟩⟩ ⟨true, some 0, none⟩ [] 7 60 rfl rfl

/-- Claim C4: if the first snapshot is running and the second is not,
    `dbm_getquery_safe` with `dont_wait` unset returns the second
    snapshot and its trace holds exactly one sleep, of the poll
    interval. -/
theorem c4_returns_second_snapshot_after_one_sleep
    (q1 q2 : Query) (md1 md2 : Metadata) (rest : List Query)
    (query_id : Int) (wait_time : Nat)
    (h1 : q1.metadata = some md1) (hr1 : md1.running = true)
    (h2 : q2.metadata = some md2) (hr2 : md2.running = false) :
    dbm_getquery_safe (q1 :: q2 :: rest) query_id wait_time false =
      ([Effect.getQuery query_id, Effect.stillRunningMsg, Effect.sleepFor wait_time,
        Effect.getQuery query_id], Except.ok q2) ∧
    countSleeps (dbm_getquery_safe (q1 :: q2 :: rest) query_id wait_time false).1 = 1 := by
  obtain ⟨a1, m1⟩ := q1
  obtain ⟨a2, m2⟩ := q2
  simp only at h1 h2
  subst h1
  subst h2
  constructor <;>
    simp [dbm_getquery_safe, dbm_poll_loop, hr1,
      dbm_poll_loop_not_running query_id wait_time false a2 md2 rest hr2,
      countSleeps, isSleepEffect]

/-- Witness for C4 at a concrete pair of snapshots. -/
theorem c4_witness :
    dbm_getquery_safe
        [⟨7, some ⟨true, some 0, none⟩⟩, ⟨7, some ⟨false, some 5, none⟩⟩] 7 60 false =
      ([Effect.getQuery 7, Effect.stillRunningMsg, Effect.sleepFor 60,
        Effect.getQuery 7], Except.ok ⟨7, some ⟨false, some 5, none⟩⟩) ∧
    countSleeps (dbm_getquery_safe
        [⟨7, some ⟨true, some 0, none⟩⟩, ⟨7, some ⟨false, some 5, none⟩⟩] 7 60 false).1 = 1 :=
  c4_returns_second_snapshot_after_one_sleep
    ⟨7, some ⟨true, some 0, none⟩⟩ ⟨7, some ⟨false, some 5, none⟩⟩
    ⟨true, some 0, none⟩ ⟨false, some 5, none⟩ [] 7 60 rfl rfl rfl rfl

/-- The response of the `listqueries` remote call: the optional
    `queries` key holds `(queryId, metadata.title)` pairs. -/
structure ListResponse where
  queries : Option (List (Int × String))
deriving Repr, DecidableEq

/-- Shallow embedding of `main` (get_latest_report.py, lines 66-100).
    `polls` is the sequence of snapshots the service returns to the
    successive `getquery` calls, `listResp` the `listqueries` response
    and `now_ms` the current time in epoch milliseconds.  With a query
    id, the status is fetched through `dbm_getquery_safe` (whose errors
    propagate); inside the `try` block a missing dictionary key raises
    `KeyError`, caught by the `except KeyError` handler which prints the
    no-report message.  A fresh report is downloaded by
    `save_report_to_file` (recorded as a `saveReport` effect and
    modelled in detail below) using the `queryId` and storage path of
    the response; otherwise `runquery` is called with the request body
    `{dataRange: report_daterange}` and nothing is downloaded.  Without
    a query id the queries are listed and printed. -/
def main (polls : List Query) (listResp : ListResponse) (now_ms : Int)
    (output_dir : String) (query_id : Int) (report_window : Nat)
    (report_daterange : String) (download_method : String) :
    List Effect × Except DbmError Unit :=
  if query_id ≠ 0 then
    match dbm_getquery_safe polls query_id 60 false with
    | (tr, Except.error e) => (tr, Except.error e)
    | (tr, Except.ok response) =>
      match response.metadata with
      | none => (tr ++ [Effect.noReportFoundMsg query_id], Except.ok ())
      | some md =>
        match md.latestReportRunTimeMs with
        | none => (tr ++ [Effect.noReportFoundMsg query_id], Except.ok ())
        | some t =>
          if is_in_report_window t report_window now_ms then
            match md.googleCloudStoragePathForLatestReport with
            | none => (tr ++ [Effect.noReportFoundMsg query_id], Except.ok ())
            | some url =>
              (tr ++ [Effect.saveReport output_dir response.queryId url download_method,
                      Effect.downloadCompleteMsg], Except.ok ())
          else
            (tr ++ [Effect.runQuery query_id report_daterange], Except.ok ())
  else
    match listResp.queries with
    | some qs =>
      (Effect.listQueriesCall :: Effect.printIdNameHeader ::
         qs.map (fun p => Effect.printQueryRow p.1 p.2), Except.ok ())
    | none =>
      ([Effect.listQueriesCall, Effect.printIdNameHeader, Effect.printNoQueries],
       Except.ok ())

/-- Claim C1: `is_in_report_window t w now` is true exactly when `t` is
    strictly after `now - w` hours (in epoch milliseconds), and at the
    exact boundary `t = now - w` hours it is false. -/
theorem c1_report_window_strictly_after_cutoff
    (run_time_ms now_ms : Int) (report_window : Nat) :
    (is_in_report_window run_time_ms report_window now_ms = true ↔
      run_time_ms > now_ms - (report_window : Int) * 3600000) ∧
    is_in_report_window (now_ms - (report_window : Int) * 3600000)
        report_window now_ms = false := by
  refine ⟨?_, ?_⟩
  · simp [is_in_report_window]
  · simp [is_in_report_window]

/-- Claim C2: with a query id whose first snapshot is not running and
    whose last-run timestamp is not within the report window, `main`
    calls `runquery` with the request body `{dataRange:
    report_daterange}` and returns without any download: the whole
    trace is the status fetch followed by the `runquery` call, and it
    holds no `save_report_to_file` invocation. -/
theorem c2_stale_query_triggers_runquery_without_download
    (q : Query) (md : Metadata) (rest : List Query) (listResp : ListResponse)
    (now_ms t : Int) (output_dir report_daterange download_method : String)
    (query_id : Int) (report_window : Nat)
    (hq : query_id ≠ 0)
    (hmd : q.metadata = some md)
    (hrun : md.running = false)
    (ht : md.latestReportRunTimeMs = some t)
    (hstale : ¬ t > now_ms - (report_window : Int) * 3600000) :
    main (q :: rest) listResp now_ms output_dir query_id report_window
        report_daterange download_method =
      ([Effect.getQuery query_id, Effect.runQuery query_id report_daterange],
       Except.ok ()) ∧
    countSaveReports (main (q :: rest) listResp now_ms output_dir query_id
        report_window report_daterange download_method).1 = 0 := by
  obtain ⟨qid0, qmd⟩ := q
  simp only at hmd
  subst hmd
  have h : main (⟨qid0, some md⟩ :: rest) listResp now_ms output_dir query_id
      report_window report_daterange download_method =
      ([Effect.getQuery query_id, Effect.runQuery query_id report_daterange],
       Except.ok ()) := by
    simp [main, hq, dbm_getquery_safe,
      dbm_poll_loop_not_running query_id 60 false qid0 md rest hrun,
      ht, is_in_report_window, hstale]
  exact ⟨h, by rw [h]; rfl⟩

/-- Witness for C2 at a concrete stale query: last run at epoch
    millisecond 0, now at 200000000 ms, window 24 hours. -/
theorem c2_witness :
    main [⟨7, some ⟨false, some 0, some "gs://r"⟩⟩] ⟨none⟩ 200000000 "/out" 7 24
        "LAST_7_DAYS" "URLRETRIEVE" =
      ([Effect.getQuery 7, Effect.runQuery 7 "LAST_7_DAYS"], Except.ok ()) ∧
    countSaveReports (main [⟨7, some ⟨false, some 0, some "gs://r"⟩⟩] ⟨none⟩
        200000000 "/out" 7 24 "LAST_7_DAYS" "URLRETRIEVE").1 = 0 :=
  c2_stale_query_triggers_runquery_without_download
    ⟨7, some ⟨false, some 0, some "gs://r"⟩⟩ ⟨false, some 0, some "gs://r"⟩ []
    ⟨none⟩ 200000000 0 "/out" "LAST_7_DAYS" "URLRETRIEVE" 7 24
    (by decide) rfl rfl rfl (by decide)

/-- Claim C9: with a query id whose fetched snapshot has no `metadata`
    key, `main` fails with the `KeyError "metadata"` raised inside
    `dbm_getquery_safe` (the QueryNotFound of the design taxonomy), and
    its trace holds no download and no `runquery` call. -/
theorem c9_missing_metadata_fails_without_download_or_run
    (q : Query) (rest : List Query) (listResp : ListResponse)
    (now_ms : Int) (output_dir report_daterange download_method : String)
    (query_id : Int) (report_window : Nat)
    (hq : query_id ≠ 0) (hmd : q.metadata = none) :
    main (q :: rest) listResp now_ms output_dir query_id report_window
        report_daterange download_method =
      ([Effect.getQuery query_id], Except.error (DbmError.keyError "metadata")) ∧
    countSaveReports (main (q :: rest) listResp now_ms output_dir query_id
        report_window report_daterange download_method).1 = 0 ∧
    countRunQueries (main (q :: rest) listResp now_ms output_dir query_id
        report_window report_daterange download_method).1 = 0 := by
  obtain ⟨qid0, qmd⟩ := q
  simp only at hmd
  subst hmd
  have h : main (⟨qid0, none⟩ :: rest) listResp now_ms output_dir query_id
      report_window report_daterange download_method =
      ([Effect.getQuery query_id], Except.error (DbmError.keyError "metadata")) := by
    simp [main, hq, dbm_getquery_safe,
      dbm_poll_loop_no_metadata query_id 60 false qid0 rest]
  exact ⟨h, by rw [h]; rfl, by rw [h]; rfl⟩

/-- Witness for C9 at a concrete absent query. -/
theorem c9_witness :
    main [⟨7, none⟩] ⟨none⟩ 200000000 "/out" 7 24 "LAST_7_DAYS" "URLRETRIEVE" =
      ([Effect.getQuery 7], Except.error (DbmError.keyError "metadata")) ∧
    countSaveReports (main [⟨7, none⟩] ⟨none⟩ 200000000 "/out" 7 24 "LAST_7_DAYS"
        "URLRETRIEVE").1 = 0 ∧
    countRunQueries (main [⟨7, none⟩] ⟨none⟩ 200000000 "/out" 7 24 "LAST_7_DAYS"
        "URLRETRIEVE").1 = 0 :=
  c9_missing_metadata_fails_without_download_or_run
    ⟨7, none⟩ [] ⟨none⟩ 200000000 "/out" "LAST_7_DAYS" "URLRETRIEVE" 7 24
    (by decide) rfl

end GetLatestReport

/-- Model of `os.path.isabs` for POSIX paths: the path begins with a
    slash. -/
def isAbs (path : String) : Bool := decide (path.data.head? = some '/')

/-- Model of `os.path.expanduser`: a leading `~` is replaced by the
    home directory; any other path is returned unchanged. -/
def expanduser (home path : String) : String :=
  if path.data.head? = some '~' then home ++ path.drop 1 else path

namespace GetLatestReport

/-- The remote report resource behind `report_url`, as the download
    strategies observe it.  `contentLength` is the value of the
    content-length header when the header is present; `totalBytes` is
    the number of bytes the server actually streams; `truncated` makes
    `urlretrieve` raise `ContentTooShortError` (a truncated transfer);
    `copyError` is the message of a `shutil.Error` or `IOError` raised
    during `shutil.copyfileobj`, when one is raised.  Reads on the
    chunked path are modelled as honest: `response.read(n)` returns
    `min n remaining` bytes and the empty chunk exactly at the end of
    the stream. -/
structure Resource where
  contentLength : Option Nat
  totalBytes : Nat
  truncated : Bool
  copyError : Option String
deriving Repr, DecidableEq

/-- Observable actions of `save_report_to_file`, with one constructor
    per call or print of the source; each summary constructor carries
    exactly the data interpolated into the corresponding print: the
    URLRETRIEVE summary prints a size and the elapsed time, the
    COPYFILEOBJ summary prints a size and the elapsed time, and the
    READCHUNK summary prints the elapsed time only.  The elapsed time
    (a `timeit.default_timer` difference) is wall clock and is carried
    as an opaque string. -/
inductive DlEvent where
  | retrieveCall (url : String) (dest : String)
  | contentTooShortMsg (msg : String)
  | urlretrieveSummary (size : Nat) (elapsed : String)
  | copyCall (url : String) (dest : String) (bufSize : Nat)
  | copyErrorMsg (msg : String)
  | copyfileobjSummary (size : Nat) (elapsed : String)
  | progressEvent (blocknum : Nat) (blockSize : Nat) (size : Nat)
  | writeBlock (nbytes : Nat)
  | readchunkSummary (elapsed : String)
deriving Repr, DecidableEq

/-- The URLRETRIEVE branch of `save_report_to_file` (lines 159-171).
    On a clean transfer, `urlretrieve` returns the headers, `size` is
    set from content-length when present (it stays 0 otherwise) and the
    summary is printed.  When `urlretrieve` raises
    `ContentTooShortError`, the handler prints the error message and
    control falls to `if "content-length" in headers:`, where the local
    variable `headers` was never assigned: Python raises `NameError`,
    which escapes the function (`main` catches `KeyError` only). -/
def urlretrieve_strategy (report_url dest : String) (res : Resource) (elapsed : String) :
    List DlEvent × Except DbmError Unit :=
  if res.truncated then
    ([DlEvent.retrieveCall report_url dest,
      DlEvent.contentTooShortMsg "ContentTooShortError"],
     Except.error (DbmError.nameError "headers"))
  else
    ([DlEvent.retrieveCall report_url dest,
      DlEvent.urlretrieveSummary (res.contentLength.getD 0) elapsed],
     Except.ok ())

/-- The COPYFILEOBJ branch of `save_report_to_file` (lines 173-187):
    `shutil.copyfileobj` with a 16000-byte buffer inside a `with` pair;
    a `shutil.Error` or `IOError` is caught and printed; in either case
    the summary is printed with `size`, which this branch never
    assigns, so it is always the 0 the function initialised. -/
def copyfileobj_strategy (report_url dest : String) (res : Resource) (elapsed : String) :
    List DlEvent × Except DbmError Unit :=
  match res.copyError with
  | some msg =>
    ([DlEvent.copyCall report_url dest 16000, DlEvent.copyErrorMsg msg,
      DlEvent.copyfileobjSummary 0 elapsed], Except.ok ())
  | none =>
    ([DlEvent.copyCall report_url dest 16000,
      DlEvent.copyfileobjSummary 0 elapsed], Except.ok ())

/-- The `while True` read loop of the READCHUNK branch (lines 208-214):
    read one block of `block_size` bytes (an honest read returns
    `min block_size remaining` bytes), stop on the empty chunk,
    otherwise increment `blocknum`, report progress and write the
    chunk. -/
def read_chunk_loop (block_size size remaining blocknum : Nat) : List DlEvent :=
  if h : min block_size remaining = 0 then []
  else
    DlEvent.progressEvent (blocknum + 1) block_size size ::
    DlEvent.writeBlock (min block_size remaining) ::
    read_chunk_loop block_size size (remaining - min block_size remaining) (blocknum + 1)
termination_by remaining
decreasing_by
  have h1 : 0 < remaining := by
    rcases Nat.eq_zero_or_pos remaining with h0 | h0
    · exact absurd (by simp [h0]) h
    · exact h0
  exact Nat.sub_lt h1 (Nat.pos_of_ne_zero h)

/-- The block size the READCHUNK branch uses (lines 194-205):
    initialised to 100 MiB, and reset to `int(size / 100) + 1` when the
    content-length header is present (Python `int(size / 100)` truncates
    the non-negative quotient, which is Nat division). -/
def readchunk_block_size (contentLength : Option Nat) : Nat :=
  match contentLength with
  | some n => n / 100 + 1
  | none => 100 * 1024 * 1024

/-- The `size` the READCHUNK branch reports (lines 153 and 201-202):
    the content-length value when the header is present, else the 0 the
    function initialised. -/
def readchunk_size (contentLength : Option Nat) : Nat := contentLength.getD 0

/-- The READCHUNK branch of `save_report_to_file` (lines 189-220): an
    initial progress event is reported with `blocknum = 0`, then the
    read loop runs, and finally the summary (elapsed time only) is
    printed.  The reads are honest, so the `except Exception` handler
    is never entered. -/
def readchunk_strategy (report_url dest : String) (res : Resource) (elapsed : String) :
    List DlEvent × Except DbmError Unit :=
  (DlEvent.progressEvent 0 (readchunk_block_size res.contentLength)
       (readchunk_size res.contentLength) ::
     (read_chunk_loop (readchunk_block_size res.contentLength)
        (readchunk_size res.contentLength) res.totalBytes 0 ++
      [DlEvent.readchunkSummary elapsed]),
   Except.ok ())

/-- Shallow embedding of `save_report_to_file` (lines 143-220): the
    destination is `output_dir/<query_id>.csv` with the user directory
    expanded when `output_dir` is not absolute, and the three method
    names select the three strategies (the source tests the three
    equalities one after the other; the strings are mutually exclusive,
    so the chain of tests is equivalent).  An unknown method name
    selects nothing and the function returns silently. -/
def save_report_to_file (home output_dir : String) (query_id : Int)
    (report_url : String) (download_method : String) (res : Resource)
    (elapsed : String) : List DlEvent × Except DbmError Unit :=
  let dir := if isAbs output_dir then output_dir else expanduser home output_dir
  let dest := dir ++ "/" ++ toString query_id ++ ".csv"
  if download_method = "URLRETRIEVE" then urlretrieve_strategy report_url dest res elapsed
  else if download_method = "COPYFILEOBJ" then copyfileobj_strategy report_url dest res elapsed
  else if download_method = "READCHUNK" then readchunk_strategy report_url dest res elapsed
  else ([], Except.ok ())

/-- The byte count of a write event, none for any other event. -/
def writeSizeOf : DlEvent → Option Nat
  | DlEvent.writeBlock n => some n
  | _ => none

/-- The sizes of the blocks written by a trace, in order. -/
def writeSizes (tr : List DlEvent) : List Nat := tr.filterMap writeSizeOf

/-- Whether an event is a progress report. -/
def isProgressEvent : DlEvent → Bool
  | DlEvent.progressEvent _ _ _ => true
  | _ => false

/-- Number of progress reports in a trace. -/
def numProgressEvents (tr : List DlEvent) : Nat := tr.countP isProgressEvent

/-- The size figure of the first summary print of a trace that carries
    one, if any: the URLRETRIEVE and COPYFILEOBJ summaries carry a size
    figure, the READCHUNK summary does not. -/
def summarySize : List DlEvent → Option Nat
  | [] => none
  | DlEvent.urlretrieveSummary s _ :: _ => some s
  | DlEvent.copyfileobjSummary s _ :: _ => some s
  | _ :: rest => summarySize rest

/-- The elapsed-time figure of the first summary print of a trace, if
    any: every one of the three summaries carries the elapsed time. -/
def summaryElapsed : List DlEvent → Option String
  | [] => none
  | DlEvent.urlretrieveSummary _ e :: _ => some e
  | DlEvent.copyfileobjSummary _ e :: _ => some e
  | DlEvent.readchunkSummary e :: _ => some e
  | _ :: rest => summaryElapsed rest

/-- The read loop writes exactly the bytes of the stream: with a
    positive block size the written block sizes add up to the number of
    bytes remaining at entry. -/
theorem read_chunk_loop_writes_sum (block_size size : Nat) (hbs : 0 < block_size) :
    ∀ remaining blocknum,
      (writeSizes (read_chunk_loop block_size size remaining blocknum)).sum = remaining := by
  intro remaining
  induction remaining using Nat.strong_induction_on with
  | _ remaining ih =>
    intro blocknum
    rw [read_chunk_loop]
    by_cases h : min block_size remaining = 0
    · rcases Nat.min_eq_zero_iff.mp h with h0 | h0
      · omega
      · simp [h, writeSizes, h0]
    · have hle : min block_size remaining ≤ remaining := Nat.min_le_right _ _
      have hpos : 0 < min block_size remaining := Nat.pos_of_ne_zero h
      have hlt : remaining - min block_size remaining < remaining := Nat.sub_lt (by omega) hpos
      simp only [dif_neg h, writeSizes, List.filterMap_cons, writeSizeOf, List.sum_cons]
      rw [show List.filterMap writeSizeOf
            (read_chunk_loop block_size size (remaining - min block_size remaining)
              (blocknum + 1)) =
          writeSizes (read_chunk_loop block_size size (remaining - min block_size remaining)
              (blocknum + 1)) from rfl,
        ih _ hlt]
      omega

/-- Every block the read loop writes is non-empty and no larger than
    the block size. -/
theorem read_chunk_loop_writes_bounded (block_size size : Nat) :
    ∀ remaining blocknum n,
      n ∈ writeSizes (read_chunk_loop block_size size remaining blocknum) →
      0 < n ∧ n ≤ block_size := by
  intro remaining
  induction remaining using Nat.strong_induction_on with
  | _ remaining ih =>
    intro blocknum n hn
    rw [read_chunk_loop] at hn
    by_cases h : min block_size remaining = 0
    · simp [h, writeSizes] at hn
    · have hpos : 0 < min block_size remaining := Nat.pos_of_ne_zero h
      have hle : min block_size remaining ≤ remaining := Nat.min_le_right _ _
      simp only [dif_neg h, writeSizes, List.filterMap_cons, writeSizeOf] at hn
      rcases List.mem_cons.mp hn with hn | hn
      · subst hn
        exact ⟨hpos, Nat.min_le_left _ _⟩
      · exact ih _ (Nat.sub_lt (by omega) hpos) (blocknum + 1) n hn

/-- Every progress event the read loop emits carries the loop's block
    size and size figures. -/
theorem read_chunk_loop_progress_fields (block_size size : Nat) :
    ∀ remaining blocknum bn bs sz,
      DlEvent.progressEvent bn bs sz ∈ read_chunk_loop block_size size remaining blocknum →
      bs = block_size ∧ sz = size := by
  intro remaining
  induction remaining using Nat.strong_induction_on with
  | _ remaining ih =>
    intro blocknum bn bs sz hmem
    rw [read_chunk_loop] at hmem
    by_cases h : min block_size remaining = 0
    · simp [h] at hmem
    · have hpos : 0 < min block_size remaining := Nat.pos_of_ne_zero h
      have hle : min block_size remaining ≤ remaining := Nat.min_le_right _ _
      simp only [dif_neg h, List.mem_cons] at hmem
      rcases hmem with hmem | hmem | hmem
      · exact ⟨(DlEvent.progressEvent.injEq _ _ _ _ _ _).mp hmem.symm |>.2.1.symm,
               (DlEvent.progressEvent.injEq _ _ _ _ _ _).mp hmem.symm |>.2.2.symm⟩
      · exact absurd hmem (by simp)
      · exact ih _ (Nat.sub_lt (by omega) hpos) (blocknum + 1) bn bs sz hmem

/-- The read loop emits exactly one progress event per written block. -/
theorem read_chunk_loop_progress_per_block (block_size size : Nat) :
    ∀ remaining blocknum,
      numProgressEvents (read_chunk_loop block_size size remaining blocknum) =
        (writeSizes (read_chunk_loop block_size size remaining blocknum)).length := by
  intro remaining
  induction remaining using Nat.strong_induction_on with
  | _ remaining ih =>
    intro blocknum
    rw [read_chunk_loop]
    by_cases h : min block_size remaining = 0
    · simp [h, writeSizes, numProgressEvents]
    · have hpos : 0 < min block_size remaining := Nat.pos_of_ne_zero h
      have hle : min block_size remaining ≤ remaining := Nat.min_le_right _ _
      have := ih (remaining - min block_size remaining) (Nat.sub_lt (by omega) hpos)
        (blocknum + 1)
      simp only [writeSizes, numProgressEvents] at this
      have hcond : ¬ (block_size = 0 ∨ remaining = 0) := by
        rw [← Nat.min_eq_zero_iff]
        exact h
      simp [hcond, writeSizes, numProgressEvents, List.countP_cons,
        List.filterMap_cons, writeSizeOf, isProgressEvent, this]

/-- The read loop performs at most `k` writes when at most `k` blocks
    of the block size cover the remaining bytes. -/
theorem read_chunk_loop_write_count_le (block_size size : Nat) :
    ∀ k remaining blocknum, remaining ≤ k * block_size →
      (writeSizes (read_chunk_loop block_size size remaining blocknum)).length ≤ k := by
  intro k
  induction k with
  | zero =>
    intro remaining blocknum hr
    have : remaining = 0 := by omega
    subst this
    rw [read_chunk_loop]
    simp [writeSizes]
  | succ k ihk =>
    intro remaining blocknum hr
    rw [read_chunk_loop]
    by_cases h : min block_size remaining = 0
    · simp [h, writeSizes]
    · have hpos : 0 < min block_size remaining := Nat.pos_of_ne_zero h
      have hle : min block_size remaining ≤ remaining := Nat.min_le_right _ _
      have hleb : min block_size remaining ≤ block_size := Nat.min_le_left _ _
      simp only [dif_neg h, writeSizes, List.filterMap_cons, writeSizeOf, List.length_cons]
      have hnext : remaining - min block_size remaining ≤ k * block_size := by
        rcases Nat.le_total block_size remaining with hc | hc
        · rw [Nat.min_eq_left hc]
          have : remaining ≤ k * block_size + block_size := by
            calc remaining ≤ (k + 1) * block_size := hr
            _ = k * block_size + block_size := by ring
          omega
        · rw [Nat.min_eq_right hc]
          omega
      have := ihk (remaining - min block_size remaining) (blocknum + 1) hnext
      simp only [writeSizes] at this
      omega

/-- The read loop emits no summary print, so `summarySize` looks past
    it. -/
theorem summarySize_read_chunk_loop_append (block_size size : Nat) :
    ∀ remaining blocknum l,
      summarySize (read_chunk_loop block_size size remaining blocknum ++ l) =
        summarySize l := by
  intro remaining
  induction remaining using Nat.strong_induction_on with
  | _ remaining ih =>
    intro blocknum l
    rw [read_chunk_loop]
    by_cases h : min block_size remaining = 0
    · simp [h]
    · have hpos : 0 < min block_size remaining := Nat.pos_of_ne_zero h
      have hle : min block_size remaining ≤ remaining := Nat.min_le_right _ _
      simp only [dif_neg h, List.cons_append, summarySize]
      exact ih _ (Nat.sub_lt (by omega) hpos) (blocknum + 1) l

/-- The read loop emits no summary print, so `summaryElapsed` looks
    past it. -/
theorem summaryElapsed_read_chunk_loop_append (block_size size : Nat) :
    ∀ remaining blocknum l,
      summaryElapsed (read_chunk_loop block_size size remaining blocknum ++ l) =
        summaryElapsed l := by
  intro remaining
  induction remaining using Nat.strong_induction_on with
  | _ remaining ih =>
    intro blocknum l
    rw [read_chunk_loop]
    by_cases h : min block_size remaining = 0
    · simp [h]
    · have hpos : 0 < min block_size remaining := Nat.pos_of_ne_zero h
      have hle : min block_size remaining ≤ remaining := Nat.min_le_right _ _
      simp only [dif_neg h, List.cons_append, summaryElapsed]
      exact ih _ (Nat.sub_lt (by omega) hpos) (blocknum + 1) l

/-- The block size is always positive. -/
theorem readchunk_block_size_pos (contentLength : Option Nat) :
    0 < readchunk_block_size contentLength := by
  cases contentLength <;> simp [readchunk_block_size]

/-- Claim C5: in the READCHUNK strategy the block size is the
    content-length value divided by 100 plus one when the header is
    present and the default 100 MiB otherwise; every progress event
    carries that block size; every written block is non-empty and at
    most one block size large; the written blocks add up to the whole
    stream; the loop emits one progress event per written block (plus
    the initial one of line 207); the strategy finishes with `ok` (the
    loop stops at the empty read, nothing is raised); and when the
    header matches the stream the resource is written in at most 100
    blocks. -/
theorem c5_readchunk_block_sizing_and_termination
    (report_url dest : String) (res : Resource) (elapsed : String) :
    (readchunk_strategy report_url dest res elapsed).2 = Except.ok () ∧
    (writeSizes (readchunk_strategy report_url dest res elapsed).1).sum = res.totalBytes ∧
    (∀ n ∈ writeSizes (readchunk_strategy report_url dest res elapsed).1,
       0 < n ∧ n ≤ readchunk_block_size res.contentLength) ∧
    (∀ bn bs sz,
       DlEvent.progressEvent bn bs sz ∈ (readchunk_strategy report_url dest res elapsed).1 →
       bs = readchunk_block_size res.contentLength) ∧
    (∀ n, res.contentLength = some n →
       readchunk_block_size res.contentLength = n / 100 + 1) ∧
    (res.contentLength = none →
       readchunk_block_size res.contentLength = 100 * 1024 * 1024) ∧
    numProgressEvents (readchunk_strategy report_url dest res elapsed).1 =
      (writeSizes (readchunk_strategy report_url dest res elapsed).1).length + 1 ∧
    (res.contentLength = some res.totalBytes →
       (writeSizes (readchunk_strategy report_url dest res elapsed).1).length ≤ 100) := by
  have hbs : 0 < readchunk_block_size res.contentLength :=
    readchunk_block_size_pos res.contentLength
  refine ⟨rfl, ?_, ?_, ?_, ?_, ?_, ?_, ?_⟩
  · simp only [readchunk_strategy, writeSizes, List.filterMap_cons, writeSizeOf,
      List.filterMap_append, List.filterMap_nil, List.append_nil]
    exact read_chunk_loop_writes_sum _ _ hbs _ _
  · intro n hn
    simp only [readchunk_strategy, writeSizes, List.filterMap_cons, writeSizeOf,
      List.filterMap_append, List.filterMap_nil, List.append_nil] at hn
    exact read_chunk_loop_writes_bounded _ _ _ _ n hn
  · intro bn bs sz hmem
    simp only [readchunk_strategy, List.mem_cons, List.mem_append,
      List.mem_singleton] at hmem
    rcases hmem with hmem | hmem | hmem
    · exact ((DlEvent.progressEvent.injEq _ _ _ _ _ _).mp hmem).2.1
    · exact (read_chunk_loop_progress_fields _ _ _ _ _ _ _ hmem).1
    · exact absurd hmem (by simp)
  · intro n hn
    rw [hn]
    rfl
  · intro hn
    rw [hn]
    rfl
  · have hloop := read_chunk_loop_progress_per_block
      (readchunk_block_size res.contentLength) (readchunk_size res.contentLength)
      res.totalBytes 0
    simp only [numProgressEvents, writeSizes] at hloop
    simp [readchunk_strategy, numProgressEvents, writeSizes, List.countP_cons,
      List.countP_append, List.filterMap_cons, List.filterMap_append, writeSizeOf,
      isProgressEvent, hloop]
  · intro hcl
    have hbsz : readchunk_block_size res.contentLength = res.totalBytes / 100 + 1 := by
      rw [hcl]
      rfl
    have hcount := read_chunk_loop_write_count_le
      (readchunk_block_size res.contentLength) (readchunk_size res.contentLength)
      100 res.totalBytes 0 (by rw [hbsz]; omega)
    simp only [writeSizes] at hcount
    simp only [readchunk_strategy, writeSizes, List.filterMap_cons, writeSizeOf,
      List.filterMap_append, List.filterMap_nil, List.append_nil]
    exact hcount

/-- Counterexample to C6 at a concrete resource of 500 bytes with
    content-length 500: the READCHUNK completion print carries the
    elapsed time but no size figure at all (even though 500 bytes were
    written), and the COPYFILEOBJ completion print reports the size as
    0, not the 500 bytes of the transfer. -/
theorem c6_counterexample :
    summarySize (readchunk_strategy "gs://r" "/out/7.csv"
        ⟨some 500, 500, false, none⟩ "0.5").1 = none ∧
    summaryElapsed (readchunk_strategy "gs://r" "/out/7.csv"
        ⟨some 500, 500, false, none⟩ "0.5").1 = some "0.5" ∧
    (writeSizes (readchunk_strategy "gs://r" "/out/7.csv"
        ⟨some 500, 500, false, none⟩ "0.5").1).sum = 500 ∧
    summarySize (copyfileobj_strategy "gs://r" "/out/7.csv"
        ⟨some 500, 500, false, none⟩ "0.5").1 = some 0 := by
  refine ⟨?_, ?_, ?_, ?_⟩
  · simp only [readchunk_strategy, summarySize]
    rw [summarySize_read_chunk_loop_append]
    rfl
  · simp only [readchunk_strategy, summaryElapsed]
    rw [summaryElapsed_read_chunk_loop_append]
    rfl
  · simp only [readchunk_strategy, writeSizes, List.filterMap_cons, writeSizeOf,
      List.filterMap_append, List.filterMap_nil, List.append_nil]
    exact read_chunk_loop_writes_sum _ _ (readchunk_block_size_pos (some 500)) _ _
  · rfl

/-- Claim C6 amended: on a clean (non-truncated) transfer, the
    URLRETRIEVE summary reports the content-length as size (0 when the
    header is absent) with the elapsed time; the COPYFILEOBJ summary
    always reports size 0 with the elapsed time, whatever was
    transferred; the READCHUNK summary reports the elapsed time only
    and no size figure; and all three strategies return without
    raising. -/
theorem c6_amended_summaries (report_url dest : String) (res : Resource)
    (elapsed : String) (htr : res.truncated = false) :
    (urlretrieve_strategy report_url dest res elapsed).2 = Except.ok () ∧
    summarySize (urlretrieve_strategy report_url dest res elapsed).1 =
      some (res.contentLength.getD 0) ∧
    summaryElapsed (urlretrieve_strategy report_url dest res elapsed).1 = some elapsed ∧
    (copyfileobj_strategy report_url dest res elapsed).2 = Except.ok () ∧
    summarySize (copyfileobj_strategy report_url dest res elapsed).1 = some 0 ∧
    summaryElapsed (copyfileobj_strategy report_url dest res elapsed).1 = some elapsed ∧
    (readchunk_strategy report_url dest res elapsed).2 = Except.ok () ∧
    summarySize (readchunk_strategy report_url dest res elapsed).1 = none ∧
    summaryElapsed (readchunk_strategy report_url dest res elapsed).1 = some elapsed := by
  refine ⟨?_, ?_, ?_, ?_, ?_, ?_, rfl, ?_, ?_⟩
  · simp [urlretrieve_strategy, htr]
  · simp [urlretrieve_strategy, htr, summarySize]
  · simp [urlretrieve_strategy, htr, summaryElapsed]
  · cases h : res.copyError <;> simp [copyfileobj_strategy, h]
  · cases h : res.copyError <;> simp [copyfileobj_strategy, h, summarySize]
  · cases h : res.copyError <;> simp [copyfileobj_strategy, h, summaryElapsed]
  · simp only [readchunk_strategy, summarySize]
    rw [summarySize_read_chunk_loop_append]
    rfl
  · simp only [readchunk_strategy, summaryElapsed]
    rw [summaryElapsed_read_chunk_loop_append]
    rfl

/-- Witness for the amended C6 at a concrete resource with no
    content-length header. -/
theorem c6_witness :
    (urlretrieve_strategy "gs://r" "/out/7.csv" ⟨none, 0, false, none⟩ "0.2").2 =
      Except.ok () ∧
    summarySize (urlretrieve_strategy "gs://r" "/out/7.csv"
        ⟨none, 0, false, none⟩ "0.2").1 = some 0 ∧
    summaryElapsed (urlretrieve_strategy "gs://r" "/out/7.csv"
        ⟨none, 0, false, none⟩ "0.2").1 = some "0.2" ∧
    (copyfileobj_strategy "gs://r" "/out/7.csv" ⟨none, 0, false, none⟩ "0.2").2 =
      Except.ok () ∧
    summarySize (copyfileobj_strategy "gs://r" "/out/7.csv"
        ⟨none, 0, false, none⟩ "0.2").1 = some 0 ∧
    summaryElapsed (copyfileobj_strategy "gs://r" "/out/7.csv"
        ⟨none, 0, false, none⟩ "0.2").1 = some "0.2" ∧
    (readchunk_strategy "gs://r" "/out/7.csv" ⟨none, 0, false, none⟩ "0.2").2 =
      Except.ok () ∧
    summarySize (readchunk_strategy "gs://r" "/out/7.csv"
        ⟨none, 0, false, none⟩ "0.2").1 = none ∧
    summaryElapsed (readchunk_strategy "gs://r" "/out/7.csv"
        ⟨none, 0, false, none⟩ "0.2").1 = some "0.2" :=
  c6_amended_summaries "gs://r" "/out/7.csv" ⟨none, 0, false, none⟩ "0.2" rfl

/-- Claim C7, evaluated at the failing input: when `urlretrieve`
    raises `ContentTooShortError` (a truncated transfer), the handler
    does print the error message, but the branch then reads the local
    variable `headers`, which the failed call never bound, so Python
    raises `NameError`: the error is re-raised in a new form rather
    than converted into a non-fatal result, and the code path after
    the strategy (the summary print, `Download complete.`) is
    aborted. -/
theorem c7_urlretrieve_truncation_aborts_with_nameerror :
    urlretrieve_strategy "gs://r" "/out/7.csv" ⟨some 500, 100, true, none⟩ "0.5" =
      ([DlEvent.retrieveCall "gs://r" "/out/7.csv",
        DlEvent.contentTooShortMsg "ContentTooShortError"],
       Except.error (DbmError.nameError "headers")) := rfl

end GetLatestReport

namespace DownloadLineItems

/-- The command-line arguments of download_line_items.py that the
    `__main__` block reads: `file_path` (with a default), and the
    optional `filter_ids` (a comma-separated string) and
    `filter_type`. -/
structure Args where
  file_path : String
  filter_ids : Option String
  filter_type : Option String
deriving Repr, DecidableEq

/-- The request body of `downloadlineitems`: the optional `filterIds`
    list and the optional `filterType`. -/
structure RequestBody where
  filterIds : Option (List String)
  filterType : Option String
deriving Repr, DecidableEq

/-- Python exceptions the `__main__` block can raise before the `try`:
    the `ValueError` for an invalid `filter_type` (the InvalidArgument
    of the design taxonomy). -/
inductive LiError where
  | valueError (msg : String)
deriving Repr, DecidableEq

/-- Observable actions of download_line_items.py, in program order:
    the `get_service` construction, the building of the
    `downloadlineitems` request, the opening of the destination file
    for writing, the `execute` network call whose `lineItems` payload
    is written to the open file, and the completion print. -/
inductive LiEffect where
  | buildService
  | buildRequest (body : RequestBody)
  | openFileForWrite (path : String)
  | executeAndWrite (body : RequestBody)
  | downloadCompleteMsg
deriving Repr, DecidableEq

/-- The set of `filter_type` values the script accepts (line 72). -/
def valid_filter_types : List String :=
  ["ADVERTISER_ID", "INSERTION_ORDER_ID", "LINE_ITEM_ID"]

/-- Model of `args.filter_ids.split(',')`. -/
def splitComma (s : String) : List String := s.splitOn ","

/-- Shallow embedding of `main` (download_line_items.py, lines 56-67):
    build the request, open `file_path` for writing, execute the call
    and write the `lineItems` payload, print the completion message.
    The remote call is modelled as succeeding. -/
def main (file_path : String) (body : RequestBody) : List LiEffect :=
  [LiEffect.buildRequest body, LiEffect.openFileForWrite file_path,
   LiEffect.executeAndWrite body, LiEffect.downloadCompleteMsg]

/-- Shallow embedding of the `__main__` block (lines 70-95).  `path`
    is bound to `args.file_path`; when the path is not absolute,
    `FILE_PATH` is bound to its user-expanded form — and never read
    again (when the path is absolute, `FILE_PATH` is never bound, hence
    the `Option`).  The guards `if args.filter_ids:` and
    `if args.filter_type:` are Python truthiness tests, false both for
    a missing argument and for the empty string: a truthy `filter_ids`
    adds the split list to the body, and a truthy `filter_type` is
    validated — added to the body when it is in the enumerated set,
    `ValueError` raised otherwise, before `get_service` is called and
    before any remote request.  A falsy `filter_type` (absent or the
    empty string) skips the validation entirely.  Then `main` runs on
    `path` — the unexpanded `args.file_path` — inside the `try`. -/
def li_script (home : String) (args : Args) : List LiEffect × Except LiError Unit :=
  let path := args.file_path
  let FILE_PATH : Option String :=
    if isAbs path then none else some (expanduser home path)
  let body0 : RequestBody := ⟨none, none⟩
  let body1 : RequestBody :=
    match args.filter_ids with
    | some ids =>
      if ids = "" then body0 else ⟨some (splitComma ids), body0.filterType⟩
    | none => body0
  match args.filter_type with
  | some ft =>
    if ft = "" then (LiEffect.buildService :: main path body1, Except.ok ())
    else if ft ∈ valid_filter_types then
      (LiEffect.buildService :: main path ⟨body1.filterIds, some ft⟩, Except.ok ())
    else
      ([], Except.error (LiError.valueError "Invalid filterType"))
  | none => (LiEffect.buildService :: main path body1, Except.ok ())

/-- Whether an effect is the `get_service` construction. -/
def isBuildServiceEffect : LiEffect → Bool
  | LiEffect.buildService => true
  | _ => false

/-- Whether an effect is the network call. -/
def isExecuteEffect : LiEffect → Bool
  | LiEffect.executeAndWrite _ => true
  | _ => false

/-- Counterexample to C8 at the concrete filter type `""`: the empty
    string is outside the enumerated set, yet Python's truthiness
    guard `if args.filter_type:` is false for it, so the script skips
    the validation, constructs the service and issues the download
    request (one `get_service` and one `execute` in the trace, no
    `ValueError`). -/
theorem c8_counterexample :
    ("" : String) ∉ valid_filter_types ∧
    (li_script "/home/user" ⟨"/tmp/line_items.csv", none, some ""⟩).2 =
      Except.ok () ∧
    (li_script "/home/user" ⟨"/tmp/line_items.csv", none, some ""⟩).1.countP
      isBuildServiceEffect = 1 ∧
    (li_script "/home/user" ⟨"/tmp/line_items.csv", none, some ""⟩).1.countP
      isExecuteEffect = 1 := by
  refine ⟨by decide, rfl, rfl, rfl⟩

/-- Claim C8 amended: with a non-empty `filter_type` outside the
    enumerated set, the script raises `ValueError` (InvalidArgument)
    with an empty trace: in particular no service object is
    constructed and no network request is issued.  (The empty string,
    though also outside the set, is falsy in Python and skips the
    validation — see the counterexample above.) -/
theorem c8_nonempty_invalid_filter_type_fails_before_any_remote_call
    (home : String) (args : Args) (ft : String)
    (hft : args.filter_type = some ft)
    (hne : ft ≠ "")
    (hbad : ft ∉ valid_filter_types) :
    li_script home args = ([], Except.error (LiError.valueError "Invalid filterType")) ∧
    (li_script home args).1.countP isBuildServiceEffect = 0 ∧
    (li_script home args).1.countP isExecuteEffect = 0 := by
  have h : li_script home args =
      ([], Except.error (LiError.valueError "Invalid filterType")) := by
    simp [li_script, hft, hne, hbad]
  exact ⟨h, by rw [h]; rfl, by rw [h]; rfl⟩

/-- Witness for the amended C8 at the concrete filter type BAD. -/
theorem c8_witness :
    li_script "/home/user" ⟨"/tmp/line_items.csv", none, some "BAD"⟩ =
      ([], Except.error (LiError.valueError "Invalid filterType")) ∧
    (li_script "/home/user" ⟨"/tmp/line_items.csv", none, some "BAD"⟩).1.countP
      isBuildServiceEffect = 0 ∧
    (li_script "/home/user" ⟨"/tmp/line_items.csv", none, some "BAD"⟩).1.countP
      isExecuteEffect = 0 :=
  c8_nonempty_invalid_filter_type_fails_before_any_remote_call
    "/home/user" ⟨"/tmp/line_items.csv", none, some "BAD"⟩ "BAD" rfl
    (by decide) (by decide)

/-- Claim C10: for a non-absolute `file_path`, the user-directory
    expansion is computed into `FILE_PATH`, which is never read again:
    the whole behaviour of the script is independent of the home
    directory, and every file opened for writing is opened at the
    original, unexpanded `args.file_path`. -/
theorem c10_expanded_path_is_dead_and_unexpanded_path_is_opened
    (home1 home2 : String) (args : Args)
    (hrel : isAbs args.file_path = false) :
    li_script home1 args = li_script home2 args ∧
    (∀ p, LiEffect.openFileForWrite p ∈ (li_script home1 args).1 →
       p = args.file_path) := by
  constructor
  · rfl
  · intro p hp
    rcases args with ⟨fp, fids, ftype⟩
    cases ftype with
    | none =>
      simp [li_script, main] at hp
      exact hp
    | some ft =>
      by_cases he : ft = ""
      · simp [li_script, main, he] at hp
        exact hp
      · by_cases hv : ft ∈ valid_filter_types
        · simp [li_script, main, he, hv] at hp
          exact hp
        · simp [li_script, main, he, hv] at hp

/-- Witness for C10: a tilde path with two different home
    directories. -/
theorem c10_witness :
    li_script "/home/alice" ⟨"~/line_items.csv", none, none⟩ =
      li_script "/home/bob" ⟨"~/line_items.csv", none, none⟩ ∧
    (∀ p, LiEffect.openFileForWrite p ∈
        (li_script "/home/alice" ⟨"~/line_items.csv", none, none⟩).1 →
       p = "~/line_items.csv") :=
  c10_expanded_path_is_dead_and_unexpanded_path_is_opened
    "/home/alice" "/home/bob" ⟨"~/line_items.csv", none, none⟩ (by decide)

end DownloadLineItems
